import Mathlib

/-!
Verification development for the kanban ticket dashboard (`src/app.py`).

The backing store (a Google Sheets worksheet) is modelled as a grid of
cell strings: row 1 is the header row, subsequent rows are data rows.
`load_data` models lines 50-64 of `app.py` (gspread `get_all_records`
numericises cell texts through Python `int()` and then `float()`,
`load_data` adds a `None` column for each recognized header that is
missing), and the transition
handler models lines 120-139 (the `new_stage != stage` guard,
`worksheet.find(str(ticket_id), in_column=1)`, `update_cell(cell.row, 8,
new_stage)`, success message, `st.cache_data.clear()`, `st.rerun()`, and
the `CellNotFound` handler).
-/

/-- A Python value held in a DataFrame cell: a string, an `int()`
result, a `float()` result (gspread numericises numeric cell texts),
or `None` (the default `load_data` writes into a missing recognized
column). A float value records only the cell text it was parsed from;
its numeric value is not needed below. -/
inductive Value where
  | str (s : String)
  | num (n : Int)
  | float (s : String)
  | none
deriving DecidableEq, Repr

/-- Python `str()` applied to a `Value`, as in `str(ticket_id)` on
line 124 of `app.py` (`str(None)` is `"None"`). Python renders a float
with its shortest round-trip decimal repr, which this development does
not model: the `.float` branch returns an inert marker and no theorem
below depends on it (each one either gets the query from a hypothesis
or excludes float-parsed ids by hypothesis). -/
def pyStr : Value → String
  | .str s => s
  | .num n => toString n
  | .float s => "float:" ++ s
  | .none => "None"

/-- Is the character one of the ASCII decimal digits `'0'`..`'9'`? -/
def isDigitChar (c : Char) : Bool :=
  48 ≤ c.toNat && c.toNat ≤ 57

/-- The number a digit string denotes, read left to right. -/
def digitsToNat (cs : List Char) : Nat :=
  cs.foldl (fun n c => n * 10 + (c.toNat - 48)) 0

/-- Whitespace stripped by Python's `int()` and `float()` before
parsing (modelled as the ASCII whitespace characters). -/
def isPySpace (c : Char) : Bool :=
  c = ' ' || c = '\t' || c = '\n' || c = '\r' || c.toNat = 11 || c.toNat = 12

/-- Strip leading and trailing whitespace from a character list. -/
def stripWs (cs : List Char) : List Char :=
  ((cs.dropWhile isPySpace).reverse.dropWhile isPySpace).reverse

/-- Drop one leading `+` or `-` sign character, when present. -/
def dropSign (cs : List Char) : List Char :=
  match cs with
  | c :: rest => if c = '+' || c = '-' then rest else c :: rest
  | [] => []

/-- Python `int(s)` on a cell text: strip surrounding whitespace, an
optional sign, then one or more decimal digits (ASCII, the form the
Sheets API emits); anything else raises and yields no value. -/
def pyInt? (s : String) : Option Int :=
  match stripWs s.data with
  | [] => Option.none
  | c :: rest =>
      let sgn : Int := if c = '-' then -1 else 1
      let digits := if c = '+' || c = '-' then rest else c :: rest
      if digits ≠ [] ∧ digits.all isDigitChar then
        some (sgn * (digitsToNat digits : Int))
      else Option.none

/-- Remainder check after a float mantissa: the rest must be empty or
an exponent — `e`/`E`, an optional sign, one or more digits. -/
def expOk (cs : List Char) : Bool :=
  match cs with
  | [] => true
  | c :: rest =>
      (c = 'e' || c = 'E') &&
        (let rest2 := dropSign rest
         decide (rest2 ≠ []) && rest2.all isDigitChar)

/-- The decimal-number grammar accepted by Python's `float()` after
sign stripping: digits with an optional point and further digits (at
least one digit in the mantissa), then an optional exponent. -/
def pyFloatBody (cs : List Char) : Bool :=
  let ip := cs.takeWhile isDigitChar
  let r1 := cs.dropWhile isDigitChar
  match r1 with
  | '.' :: rest =>
      let fp := rest.takeWhile isDigitChar
      (decide (ip ≠ []) || decide (fp ≠ [])) &&
        expOk (rest.dropWhile isDigitChar)
  | _ => decide (ip ≠ []) && expOk r1

/-- Does Python's `float(s)` accept the cell text? Surrounding
whitespace and one sign are stripped; the special words `inf`,
`infinity` and `nan` are accepted case-insensitively, as is the
decimal grammar of `pyFloatBody`. -/
def pyFloatAccepts (s : String) : Bool :=
  let cs := dropSign (stripWs s.data)
  let low := cs.map Char.toLower
  low == ['i', 'n', 'f'] || low == ['i', 'n', 'f', 'i', 'n', 'i', 't', 'y'] ||
    low == ['n', 'a', 'n'] || pyFloatBody cs

/-- gspread `get_all_records` numericising (gspread's `numericise`): a
text containing an underscore stays text; otherwise try `int()`, then
fall back to `float()`; when both fail the text stays as it is (an
empty cell stays the empty string, gspread's `default_blank`). -/
def numericise (s : String) : Value :=
  if s.data.contains '_' then .str s
  else
    match pyInt? s with
    | some n => .num n
    | Option.none => if pyFloatAccepts s then .float s else .str s

/-- The worksheet: a grid of cell strings. Row 1 (index 0) is the
header row; the rows after it are data rows. -/
structure Worksheet where
  grid : List (List String)
deriving DecidableEq, Repr

/-- The header row of the sheet. -/
def Worksheet.headers (ws : Worksheet) : List String := ws.grid.headD []

/-- The data rows of the sheet (everything below the header row). -/
def Worksheet.dataRows (ws : Worksheet) : List (List String) := ws.grid.tail

/-- The cell at 0-based row `i`, 0-based column `j`, when present. -/
def Worksheet.cell (ws : Worksheet) (i j : Nat) : Option String :=
  (ws.grid.get? i).bind (fun row => row.get? j)

/-- One record of the loaded DataFrame, restricted to the recognized
columns `load_data` guarantees (line 58 of `app.py`). -/
structure Record where
  id : Value
  stage : Value
  priority : Value
  title : Value
  requester : Value
  created : Value
deriving DecidableEq, Repr

/-- The value a data row contributes to the DataFrame column named
`col`: the numericised cell under that header (gspread pads a short row
with `""`), or `None` when the header is absent (the `df[col] = None`
default of `load_data`). -/
def lookupField (headers row : List String) (col : String) : Value :=
  match headers.indexOf? col with
  | some i => numericise ((row.get? i).getD "")
  | Option.none => Value.none

/-- The `Record` a single data row loads to. -/
def mkRecord (headers row : List String) : Record :=
  { id := lookupField headers row "ID Ticket"
    stage := lookupField headers row "Estado"
    priority := lookupField headers row "Prioridad"
    title := lookupField headers row "Título"
    requester := lookupField headers row "Solicitante"
    created := lookupField headers row "Fecha Creacion" }

/-- `load_data` (lines 50-64 of `app.py`): every data row becomes a
record whose recognized fields come from the header-named columns, with
a `None` default for a missing recognized column. -/
def load_data (ws : Worksheet) : List Record :=
  ws.dataRows.map (mkRecord ws.headers)

/-- The fixed ordered stage list (line 82 of `app.py`). -/
def stages6 : List String :=
  ["Enfocar", "Detectar", "Idear", "Diseñar MVP", "Pilotear", "Escalar"]

/-- The per-stage filter of the board (line 91 of `app.py`,
`df[df['Estado'] == stage]`): pandas equality of a cell value with a
stage name holds only when the cell is that exact string. -/
def stageFilter (recs : List Record) (s : String) : List Record :=
  recs.filter (fun r => decide (r.stage = Value.str s))

/-- `group_by_stage` (lines 87-93 of `app.py`): one bucket per stage of
the ordered stage list, each the per-stage filter of the loaded
records. -/
def group_by_stage (stages : List String) (recs : List Record) :
    List (String × List Record) :=
  stages.map (fun s => (s, stageFilter recs s))

/-- `worksheet.find(query, in_column=1)` (line 124 of `app.py`): scan
the first column of the sheet top-to-bottom, starting at 1-based row
`i`, and return the 1-based row of the first cell equal to `query`. -/
def findRowAux (rows : List (List String)) (query : String) (i : Nat) :
    Option Nat :=
  match rows with
  | [] => Option.none
  | row :: rest =>
      if row.head? = some query then some i else findRowAux rest query (i + 1)

/-- Row location over the whole sheet (the header row is row 1). -/
def findRow (ws : Worksheet) (query : String) : Option Nat :=
  findRowAux ws.grid query 1

/-- `worksheet.update_cell(row, col, v)` (line 128 of `app.py`):
overwrite the cell at 1-based `row`, 1-based `col` with `v`. -/
def Worksheet.update_cell (ws : Worksheet) (row col : Nat) (v : String) :
    Worksheet :=
  ⟨ws.grid.set (row - 1) (((ws.grid.get? (row - 1)).getD []).set (col - 1) v)⟩

/-- Outcome of the store-gateway stage update. -/
inductive UpdateResult where
  | success
  | recordNotFound
deriving DecidableEq, Repr

/-- The gateway slice of the update block (lines 124-128 of `app.py`):
locate the row whose first-column cell equals `ticket_id` and overwrite
its column 8 with `new_stage`; when no cell matches, `CellNotFound` is
raised and nothing is written. -/
def update_stage (ws : Worksheet) (ticket_id new_stage : String) :
    Worksheet × UpdateResult :=
  match findRow ws ticket_id with
  | some r => (ws.update_cell r 8 new_stage, .success)
  | Option.none => (ws, .recordNotFound)

/-- Observable effects of one run of the update block: the row lookup
(`worksheet.find`), a cell write, the success message, the cache clear,
the rerun, and the not-found error message. -/
inductive Event where
  | locate (query : String)
  | cellWrite (row col : Nat) (value : String)
  | successMsg
  | clearCache
  | rerun
  | errorNotFound
deriving DecidableEq, Repr

/-- The transition handler (lines 120-139 of `app.py`): guarded by
`new_stage != stage`; on a located row it writes the single cell
(row, 8), shows the success message, clears the cache, and reruns; on
`CellNotFound` it shows the error message and touches nothing. -/
def transition_handler (ws : Worksheet) (ticket_id : Value)
    (stage new_stage : String) : Worksheet × List Event :=
  if new_stage = stage then (ws, [])
  else
    match findRow ws (pyStr ticket_id) with
    | some r =>
        (ws.update_cell r 8 new_stage,
         [.locate (pyStr ticket_id), .cellWrite r 8 new_stage,
          .successMsg, .clearCache, .rerun])
    | Option.none => (ws, [.locate (pyStr ticket_id), .errorNotFound])

/-- Does the value carry Python type `str`? -/
def Value.isStr : Value → Bool
  | .str _ => true
  | _ => false

/-- A header row matching the sheet schema the code assumes: identifier
in column A (1), `Estado` in column H (8). -/
def exHeaders : List String :=
  ["ID Ticket", "Título", "Solicitante", "Prioridad", "Correo",
   "Fecha Creacion", "Descripción", "Estado"]

/-- A concrete worksheet with two tickets. -/
def exWs : Worksheet :=
  ⟨[exHeaders,
    ["1", "Mejorar portal", "Ana", "Alta", "a@x.cl", "2024-01-02", "", "Enfocar"],
    ["2", "Nueva idea", "Luis", "Media", "l@x.cl", "2024-01-03", "", "Idear"]]⟩

/-- A concrete worksheet with a duplicated identifier. -/
def exWsDup : Worksheet :=
  ⟨[exHeaders,
    ["7", "Primera", "Ana", "Alta", "a@x.cl", "2024-01-02", "", "Enfocar"],
    ["7", "Segunda", "Luis", "Media", "l@x.cl", "2024-01-03", "", "Idear"]]⟩

/-- A concrete worksheet whose header row lacks the `Estado` column. -/
def exWsNoEstado : Worksheet :=
  ⟨[["ID Ticket", "Título"], ["1", "Algo"]]⟩

/-- A concrete worksheet whose header row lacks the `Prioridad` column
while `Estado` is present. -/
def exWsNoPrioridad : Worksheet :=
  ⟨[["ID Ticket", "Estado"], ["1", "Idear"]]⟩

/-- The first record of the spec's board-projection scenario. -/
def rec1 : Record :=
  ⟨Value.str "1", Value.str "Enfocar", Value.str "", Value.str "",
   Value.str "", Value.str ""⟩

/-- The second record of the spec's board-projection scenario. -/
def rec2 : Record :=
  ⟨Value.str "2", Value.str "Idear", Value.str "", Value.str "",
   Value.str "", Value.str ""⟩

/-- A successful scan starting at row `i` lands at or after `i`, on a
row whose first cell is the query. -/
theorem findRowAux_mem (rows : List (List String)) (q : String) (i r : Nat)
    (h : findRowAux rows q i = some r) :
    i ≤ r ∧ (rows.get? (r - i)).bind List.head? = some q := by
  induction rows generalizing i with
  | nil => simp [findRowAux] at h
  | cons row rest ih =>
      by_cases hx : row.head? = some q
      · simp only [findRowAux, if_pos hx, Option.some.injEq] at h
        subst h
        exact ⟨Nat.le_refl _, by simpa using hx⟩
      · have h' : findRowAux rest q (i + 1) = some r := by
          simpa [findRowAux, hx] using h
        obtain ⟨hle, hget⟩ := ih (i + 1) h'
        refine ⟨by omega, ?_⟩
        have e : r - i = (r - (i + 1)) + 1 := by omega
        rw [e]
        simpa using hget

/-- The scan returns the first match: every row strictly before the
returned one has a different first cell. -/
theorem findRowAux_first (rows : List (List String)) (q : String) (i r : Nat)
    (h : findRowAux rows q i = some r) :
    ∀ j, i + j < r → (rows.get? j).bind List.head? ≠ some q := by
  induction rows generalizing i with
  | nil => intro j _; simp
  | cons row rest ih =>
      intro j hj
      by_cases hx : row.head? = some q
      · simp only [findRowAux, if_pos hx, Option.some.injEq] at h
        omega
      · cases j with
        | zero => simpa using hx
        | succ j' =>
            have h' : findRowAux rest q (i + 1) = some r := by
              simpa [findRowAux, hx] using h
            simpa using ih (i + 1) h' j' (by omega)

/-- If some row's first cell equals the query, the scan succeeds. -/
theorem findRowAux_complete (rows : List (List String)) (q : String)
    (i k : Nat) (h : (rows.get? k).bind List.head? = some q) :
    ∃ r, findRowAux rows q i = some r := by
  induction rows generalizing i k with
  | nil => simp at h
  | cons row rest ih =>
      by_cases hx : row.head? = some q
      · exact ⟨i, by simp [findRowAux, hx]⟩
      · cases k with
        | zero => exact absurd (by simpa using h) hx
        | succ k' =>
            obtain ⟨r, hr⟩ := ih (i + 1) k' (by simpa using h)
            exact ⟨r, by simp [findRowAux, hx, hr]⟩

/-- Setting an entry below the head leaves the head unchanged. -/
theorem headD_set_succ {α : Type} (l : List α) (i : Nat) (a d : α) :
    (l.set (i + 1) a).headD d = l.headD d := by
  cases l <;> rfl

/-- Setting an entry below the head acts on the tail, shifted by one. -/
theorem tail_set_succ {α : Type} (l : List α) (i : Nat) (a : α) :
    (l.set (i + 1) a).tail = l.tail.set i a := by
  cases l <;> rfl

/-- Indexing the tail is indexing the list one position later. -/
theorem get?_tail_eq {α : Type} (l : List α) (n : Nat) :
    l.tail.get? n = l.get? (n + 1) := by
  cases l <;> rfl

/-- C1: after a successful stage update of an id present in the store
(one cell write to the located row's stage column, fixed column 8 under
the sheet schema), the next fresh fetch of all records yields that
record — at the located data row, with the queried identifier — with
its stage field equal to the new stage. -/
theorem update_stage_roundtrip (ws : Worksheet) (q S : String) (r : Nat)
    (hfind : findRow ws q = some r) (hr : 2 ≤ r)
    (hID : ws.headers.indexOf? "ID Ticket" = some 0)
    (hEstado : ws.headers.indexOf? "Estado" = some 7)
    (hlen : 8 ≤ ((ws.grid.get? (r - 1)).getD []).length)
    (hS : numericise S = Value.str S) :
    (update_stage ws q S).snd = UpdateResult.success ∧
    ((load_data (update_stage ws q S).fst).get? (r - 2)).map Record.stage
        = some (Value.str S) ∧
    ((load_data (update_stage ws q S).fst).get? (r - 2)).map Record.id
        = some (numericise q) := by
  obtain ⟨h1r, hrow⟩ := findRowAux_mem ws.grid q 1 r hfind
  obtain ⟨row0, hrow0, hhead⟩ :
      ∃ row0, ws.grid.get? (r - 1) = some row0 ∧ row0.head? = some q := by
    cases hg : ws.grid.get? (r - 1) with
    | none => rw [hg] at hrow; simp at hrow
    | some row0 => rw [hg] at hrow; exact ⟨row0, rfl, by simpa using hrow⟩
  have hrowD : (ws.grid.get? (r - 1)).getD [] = row0 := by rw [hrow0]; rfl
  have hrowD' : ws.grid[r - 1]? = some row0 := by
    rw [← List.get?_eq_getElem?]; exact hrow0
  have hlen0 : 8 ≤ row0.length := by rwa [hrowD] at hlen
  obtain ⟨hlt, -⟩ := List.get?_eq_some.mp hrow0
  have hus : update_stage ws q S = (ws.update_cell r 8 S, .success) := by
    simp [update_stage, hfind]
  have hgrid : (ws.update_cell r 8 S).grid
      = ws.grid.set (r - 1) (row0.set 7 S) := by
    simp [Worksheet.update_cell, hrowD']
  have e : r - 1 = (r - 2) + 1 := by omega
  have hheaders : (ws.update_cell r 8 S).headers = ws.headers := by
    rw [Worksheet.headers, hgrid, e, headD_set_succ]; rfl
  have hdata : (ws.update_cell r 8 S).dataRows
      = ws.dataRows.set (r - 2) (row0.set 7 S) := by
    rw [Worksheet.dataRows, hgrid, e, tail_set_succ]; rfl
  have hlt2 : r - 2 < ws.dataRows.length := by
    have htl : ws.dataRows.length = ws.grid.length - 1 := by
      rw [Worksheet.dataRows, List.length_tail]
    omega
  have hget : (load_data (ws.update_cell r 8 S)).get? (r - 2)
      = some (mkRecord ws.headers (row0.set 7 S)) := by
    rw [load_data, hdata, hheaders, List.get?_map,
      List.get?_set_eq_of_lt _ hlt2]
    rfl
  have hstage : (mkRecord ws.headers (row0.set 7 S)).stage = Value.str S := by
    have h7 : (row0.set 7 S)[7]? = some S := by
      rw [← List.get?_eq_getElem?]
      exact List.get?_set_eq_of_lt _ (by omega)
    simp [mkRecord, lookupField, hEstado, h7, hS]
  have hid : (mkRecord ws.headers (row0.set 7 S)).id = numericise q := by
    have h0 : (row0.set 7 S)[0]? = row0[0]? := by
      rw [← List.get?_eq_getElem?, ← List.get?_eq_getElem?]
      exact List.get?_set_ne _ _ (by omega)
    have hq : row0[0]? = some q := by
      cases row0 with
      | nil => simp at hhead
      | cons a t => simpa using hhead
    simp [mkRecord, lookupField, hID, h0, hq]
  rw [hus]
  exact ⟨rfl, by rw [hget]; simp [hstage], by rw [hget]; simp [hid]⟩

/-- Witness for C1 on the concrete store: moving ticket "1" to
"Pilotear" succeeds and the fresh fetch shows stage "Pilotear". -/
theorem update_stage_roundtrip_witness :
    (update_stage exWs "1" "Pilotear").snd = UpdateResult.success ∧
    ((load_data (update_stage exWs "1" "Pilotear").fst).get? (2 - 2)).map
        Record.stage = some (Value.str "Pilotear") ∧
    ((load_data (update_stage exWs "1" "Pilotear").fst).get? (2 - 2)).map
        Record.id = some (numericise "1") :=
  update_stage_roundtrip exWs "1" "Pilotear" 2 (by decide) (by decide)
    (by decide) (by decide) (by decide) (by decide)

/-- C2: for an id not present anywhere in the identifier column, the
stage update yields `RecordNotFound`; the handler performs one lookup,
no retry, no write, surfaces the error message, and the store is
unchanged. -/
theorem update_stage_notFound_noWrite (ws : Worksheet) (tid : Value)
    (stage new_stage : String) (hne : new_stage ≠ stage)
    (habsent : ∀ k, k < ws.grid.length →
      (ws.grid.get? k).bind List.head? ≠ some (pyStr tid)) :
    update_stage ws (pyStr tid) new_stage = (ws, UpdateResult.recordNotFound) ∧
    transition_handler ws tid stage new_stage
      = (ws, [Event.locate (pyStr tid), Event.errorNotFound]) := by
  have hfind : findRow ws (pyStr tid) = Option.none := by
    cases hf : findRow ws (pyStr tid) with
    | none => rfl
    | some r =>
        obtain ⟨h1r, hrow⟩ := findRowAux_mem ws.grid (pyStr tid) 1 r hf
        have hlt : r - 1 < ws.grid.length := by
          cases hg : ws.grid.get? (r - 1) with
          | none => rw [hg] at hrow; simp at hrow
          | some row0 => exact (List.get?_eq_some.mp hg).1
        exact absurd hrow (habsent (r - 1) hlt)
  constructor
  · simp [update_stage, hfind]
  · simp [transition_handler, hne, hfind]

/-- Witness for C2: updating the absent id "does-not-exist" to "Idear"
on the concrete store returns `RecordNotFound` and changes nothing. -/
theorem update_stage_notFound_noWrite_witness :
    update_stage exWs "does-not-exist" "Idear"
      = (exWs, UpdateResult.recordNotFound) ∧
    transition_handler exWs (Value.str "does-not-exist") "Enfocar" "Idear"
      = (exWs, [Event.locate "does-not-exist", Event.errorNotFound]) :=
  update_stage_notFound_noWrite exWs (Value.str "does-not-exist")
    "Enfocar" "Idear" (by decide) (by decide)

/-- C3: a successful transition to a different stage performs exactly
one cell write — at the located row, fixed 1-based column 8 — leaves
every other cell unchanged, and clears the cache before the rerun. -/
theorem transition_single_cell_write (ws : Worksheet) (tid : Value)
    (stage new_stage : String) (r : Nat)
    (hne : new_stage ≠ stage)
    (hfind : findRow ws (pyStr tid) = some r)
    (hlen : 8 ≤ ((ws.grid.get? (r - 1)).getD []).length) :
    (transition_handler ws tid stage new_stage).snd
      = [Event.locate (pyStr tid), Event.cellWrite r 8 new_stage,
         Event.successMsg, Event.clearCache, Event.rerun] ∧
    (∀ i j, i ≠ r - 1 ∨ j ≠ 7 →
      (transition_handler ws tid stage new_stage).fst.cell i j
        = ws.cell i j) ∧
    (transition_handler ws tid stage new_stage).fst.cell (r - 1) 7
      = some new_stage := by
  obtain ⟨h1r, hrow⟩ := findRowAux_mem ws.grid (pyStr tid) 1 r hfind
  obtain ⟨row0, hrow0, hhead⟩ : ∃ row0,
      ws.grid.get? (r - 1) = some row0 ∧ row0.head? = some (pyStr tid) := by
    cases hg : ws.grid.get? (r - 1) with
    | none => rw [hg] at hrow; simp at hrow
    | some row0 => rw [hg] at hrow; exact ⟨row0, rfl, by simpa using hrow⟩
  have hrowD' : ws.grid[r - 1]? = some row0 := by
    rw [← List.get?_eq_getElem?]; exact hrow0
  have hlen0 : 8 ≤ row0.length := by rw [hrow0] at hlen; exact hlen
  obtain ⟨hlt, -⟩ := List.get?_eq_some.mp hrow0
  have hth : transition_handler ws tid stage new_stage
      = (ws.update_cell r 8 new_stage,
         [Event.locate (pyStr tid), Event.cellWrite r 8 new_stage,
          Event.successMsg, Event.clearCache, Event.rerun]) := by
    simp [transition_handler, hne, hfind]
  have hgrid : (ws.update_cell r 8 new_stage).grid
      = ws.grid.set (r - 1) (row0.set 7 new_stage) := by
    simp [Worksheet.update_cell, hrowD']
  rw [hth]
  refine ⟨rfl, ?_, ?_⟩
  · intro i j hij
    rw [Worksheet.cell, Worksheet.cell, hgrid]
    rcases eq_or_ne i (r - 1) with hi | hi
    · subst hi
      have hj : (7 : Nat) ≠ j := by
        rcases hij with h | h
        · exact absurd rfl h
        · exact Ne.symm h
      simp only [List.get?_eq_getElem?]
      rw [List.getElem?_set_eq_of_lt _ hlt, hrowD']
      simp [List.getElem?_set_ne hj]
    · simp only [List.get?_eq_getElem?]
      rw [List.getElem?_set_ne (Ne.symm hi)]
  · rw [Worksheet.cell, hgrid]
    simp only [List.get?_eq_getElem?]
    rw [List.getElem?_set_eq_of_lt _ hlt]
    simp [List.getElem?_set_eq_of_lt _ (show 7 < row0.length by omega)]

/-- Witness for C3: moving ticket "1" from "Enfocar" to "Pilotear" on
the concrete store emits exactly the lookup, one cell write at
(row 2, column 8), the success message, the cache clear, then the
rerun; an untouched cell is unchanged and the stage cell holds the new
value. -/
theorem transition_single_cell_write_witness :
    (transition_handler exWs (Value.num 1) "Enfocar" "Pilotear").snd
      = [Event.locate "1", Event.cellWrite 2 8 "Pilotear",
         Event.successMsg, Event.clearCache, Event.rerun] ∧
    (transition_handler exWs (Value.num 1) "Enfocar" "Pilotear").fst.cell 0 0
      = exWs.cell 0 0 ∧
    (transition_handler exWs (Value.num 1) "Enfocar" "Pilotear").fst.cell
        (2 - 1) 7 = some "Pilotear" :=
  ⟨(transition_single_cell_write exWs (Value.num 1) "Enfocar" "Pilotear" 2
      (by decide) (by decide) (by decide)).1,
   (transition_single_cell_write exWs (Value.num 1) "Enfocar" "Pilotear" 2
      (by decide) (by decide) (by decide)).2.1 0 0 (Or.inl (by decide)),
   (transition_single_cell_write exWs (Value.num 1) "Enfocar" "Pilotear" 2
      (by decide) (by decide) (by decide)).2.2⟩

/-- C4: requesting a transition to the record's current displayed stage
is a no-op — no lookup, no write, no effect at all, and the store is
unchanged. -/
theorem transition_same_stage_noop (ws : Worksheet) (tid : Value)
    (stage : String) :
    transition_handler ws tid stage stage = (ws, []) := by
  simp [transition_handler]

/-- C9: row location scans the identifier column top-to-bottom and
returns the first row whose cell equals the queried id; every earlier
row differs, and the update targets exactly that first row. -/
theorem findRow_first_match (ws : Worksheet) (q : String) (r : Nat)
    (h : findRow ws q = some r) :
    1 ≤ r ∧ (ws.grid.get? (r - 1)).bind List.head? = some q ∧
    (∀ j, j + 1 < r → (ws.grid.get? j).bind List.head? ≠ some q) ∧
    ∀ ns, update_stage ws q ns
      = (ws.update_cell r 8 ns, UpdateResult.success) := by
  obtain ⟨h1, h2⟩ := findRowAux_mem ws.grid q 1 r h
  refine ⟨h1, by simpa using h2, ?_, ?_⟩
  · intro j hj
    exact findRowAux_first ws.grid q 1 r h j (by omega)
  · intro ns
    simp [update_stage, h]

/-- Witness for C9: with the duplicated id "7", location returns the
first data row (sheet row 2) and the update targets only it. -/
theorem findRow_first_match_witness :
    (exWsDup.grid.get? (2 - 1)).bind List.head? = some "7" ∧
    ((exWsDup.grid.get? 0).bind List.head? ≠ some "7") ∧
    update_stage exWsDup "7" "Idear"
      = (exWsDup.update_cell 2 8 "Idear", UpdateResult.success) :=
  ⟨(findRow_first_match exWsDup "7" 2 (by decide)).2.1,
   (findRow_first_match exWsDup "7" 2 (by decide)).2.2.1 0 (by decide),
   (findRow_first_match exWsDup "7" 2 (by decide)).2.2.2 "Idear"⟩

/-- Counterexample to C5 as stated: on a store presenting the ids as
numbers, the fetched records carry numeric ids — `load_data` does not
normalize the id field to a string form. -/
theorem load_data_id_not_normalized_cex :
    (load_data exWs).map Record.id = [Value.num 1, Value.num 2] ∧
    (load_data exWs).map (fun r => r.id.isStr) = [false, false] := by
  decide

/-- C5 (amended): ids are not normalized at fetch; instead `str()` is
applied to the fetched id at lookup time, and the exact-match lookup by
that string succeeds whenever the id cell's text is canonical under
numericising (`str()` of the numericised value reproduces the text).
This covers a canonically number-presented id (such as "1" or "-3")
and a text-presented one; it excludes texts numericising changes, such
as "007", "+5", " 1 " (whitespace and sign stripped by `int()`) or
"1.50" (`float()` fallback), where the rendered query can differ from
the cell and the find can raise `CellNotFound`. -/
theorem lookup_after_str_succeeds (ws : Worksheet) (k : Nat)
    (row : List String) (s : String)
    (hrow : ws.dataRows.get? k = some row) (hhead : row.head? = some s)
    (hID : ws.headers.indexOf? "ID Ticket" = some 0)
    (hs : pyStr (numericise s) = s) :
    ∃ rec, (load_data ws).get? k = some rec ∧
      rec.id = numericise s ∧
      ∃ r, findRow ws (pyStr rec.id) = some r := by
  have hq : row[0]? = some s := by
    cases row with
    | nil => simp at hhead
    | cons a t => simpa using hhead
  have hrec : (load_data ws).get? k = some (mkRecord ws.headers row) := by
    rw [load_data, List.get?_map, hrow]; rfl
  have hid : (mkRecord ws.headers row).id = numericise s := by
    simp [mkRecord, lookupField, hID, hq]
  refine ⟨mkRecord ws.headers row, hrec, hid, ?_⟩
  rw [hid, hs]
  have ht : ws.grid.get? (k + 1) = some row := by
    rw [← get?_tail_eq]; exact hrow
  have hg : (ws.grid.get? (k + 1)).bind List.head? = some s := by
    rw [ht]; simpa using hhead
  exact findRowAux_complete ws.grid s 1 (k + 1) hg

/-- Witness for C5 (amended) at a number-presented id: ticket "1" of
the concrete store loads with numeric id and its `str()` lookup
succeeds. -/
theorem lookup_after_str_succeeds_witness :
    ∃ rec, (load_data exWs).get? 0 = some rec ∧
      rec.id = numericise "1" ∧
      ∃ r, findRow exWs (pyStr rec.id) = some r :=
  lookup_after_str_succeeds exWs 0
    ["1", "Mejorar portal", "Ana", "Alta", "a@x.cl", "2024-01-02", "", "Enfocar"]
    "1" (by decide) (by decide) (by decide) (by decide)

/-- C6: buckets for two different stage names never share a record. -/
theorem group_by_stage_disjoint (stages : List String) (recs : List Record)
    (s1 s2 : String) (b1 b2 : List Record)
    (h1 : (s1, b1) ∈ group_by_stage stages recs)
    (h2 : (s2, b2) ∈ group_by_stage stages recs)
    (hne : s1 ≠ s2) (r : Record) (hr : r ∈ b1) : r ∉ b2 := by
  intro habs
  obtain ⟨t1, ht1, he1⟩ := List.mem_map.mp h1
  rw [Prod.mk.injEq] at he1
  obtain ⟨hs1, hb1⟩ := he1
  subst hs1; subst hb1
  obtain ⟨t2, ht2, he2⟩ := List.mem_map.mp h2
  rw [Prod.mk.injEq] at he2
  obtain ⟨hs2, hb2⟩ := he2
  subst hs2; subst hb2
  have e1 : r.stage = Value.str t1 :=
    of_decide_eq_true (List.mem_filter.mp hr).2
  have e2 : r.stage = Value.str t2 :=
    of_decide_eq_true (List.mem_filter.mp habs).2
  exact hne (Value.str.inj (e1.symm.trans e2))

/-- Witness for C6 on the spec's scenario: the record in the "Enfocar"
bucket is absent from the "Idear" bucket. -/
theorem group_by_stage_disjoint_witness : rec1 ∉ [rec2] :=
  group_by_stage_disjoint stages6 [rec1, rec2] "Enfocar" "Idear"
    [rec1] [rec2] (by decide) (by decide) (by decide) rec1 (by decide)

/-- C7: each bucket contains exactly the records whose stage equals the
bucket's stage name, in the snapshot's original relative order; a
record matching no listed stage appears in no bucket; and the spec's
concrete two-record scenario yields exactly the stated six buckets. -/
theorem group_by_stage_buckets :
    (∀ stages recs s b, (s, b) ∈ group_by_stage stages recs →
      List.Sublist b recs ∧
      ∀ r, (r ∈ b ↔ r ∈ recs ∧ r.stage = Value.str s)) ∧
    (∀ stages recs r, (∀ s, s ∈ stages → r.stage ≠ Value.str s) →
      ∀ s b, (s, b) ∈ group_by_stage stages recs → r ∉ b) ∧
    group_by_stage stages6 [rec1, rec2]
      = [("Enfocar", [rec1]), ("Detectar", []), ("Idear", [rec2]),
         ("Diseñar MVP", []), ("Pilotear", []), ("Escalar", [])] := by
  refine ⟨?_, ?_, by decide⟩
  · intro stages recs s b hb
    obtain ⟨t, ht, he⟩ := List.mem_map.mp hb
    rw [Prod.mk.injEq] at he
    obtain ⟨hs, hbb⟩ := he
    subst hs; subst hbb
    refine ⟨List.filter_sublist _, ?_⟩
    intro r
    constructor
    · intro hr
      exact ⟨(List.mem_filter.mp hr).1,
        of_decide_eq_true (List.mem_filter.mp hr).2⟩
    · intro hrc
      exact List.mem_filter.mpr ⟨hrc.1, decide_eq_true hrc.2⟩
  · intro stages recs r hno s b hb habs
    obtain ⟨t, ht, he⟩ := List.mem_map.mp hb
    rw [Prod.mk.injEq] at he
    obtain ⟨hs, hbb⟩ := he
    subst hs; subst hbb
    exact hno t ht (of_decide_eq_true (List.mem_filter.mp habs).2)

/-- Witness for C7: on the spec's scenario, membership in the
"Enfocar" bucket is exactly membership in the snapshot with stage
"Enfocar". -/
theorem group_by_stage_buckets_witness :
    rec1 ∈ [rec1] ↔ rec1 ∈ [rec1, rec2] ∧ rec1.stage = Value.str "Enfocar" :=
  (group_by_stage_buckets.1 stages6 [rec1, rec2] "Enfocar" [rec1]
    (by decide)).2 rec1

/-- Counterexample to C8 as stated: with the `Estado` header missing
from the store, `load_data` fills the stage field with `None`, not
with the empty string. -/
theorem load_data_default_not_empty_cex :
    (load_data exWsNoEstado).map Record.stage = [Value.none] ∧
    Value.none ≠ Value.str "" := by
  decide

/-- C8 (amended): for each recognized column missing from the store's
headers — whichever column it is — `load_data` supplies the default
`None` (not the empty string); when the missing column is `Estado`,
every loaded record's stage is `None` and matches no stage bucket of
any stage list. -/
theorem load_data_missing_column_none (ws : Worksheet) (col : String)
    (hcol : ws.headers.indexOf? col = Option.none) :
    (∀ row, lookupField ws.headers row col = Value.none) ∧
    (col = "Estado" →
      (∀ r, r ∈ load_data ws → r.stage = Value.none) ∧
      (∀ stages r, r ∈ load_data ws →
        ∀ s b, (s, b) ∈ group_by_stage stages (load_data ws) → r ∉ b)) := by
  refine ⟨fun row => by simp [lookupField, hcol], ?_⟩
  intro hce
  subst hce
  have hstage : ∀ r, r ∈ load_data ws → r.stage = Value.none := by
    intro r hr
    simp only [load_data] at hr
    obtain ⟨row, hrow, he⟩ := List.mem_map.mp hr
    subst he
    simp [mkRecord, lookupField, hcol]
  refine ⟨hstage, ?_⟩
  intro stages r hr s b hb habs
  obtain ⟨t, ht, he2⟩ := List.mem_map.mp hb
  rw [Prod.mk.injEq] at he2
  obtain ⟨hs, hbb⟩ := he2
  subst hs; subst hbb
  have hh := of_decide_eq_true (List.mem_filter.mp habs).2
  rw [hstage r hr] at hh
  exact Value.noConfusion hh

/-- Witness for C8 (amended): the default is `None` for a missing
`Prioridad` column on a store that still has `Estado`, and likewise
for a missing `Estado` column, where the loaded record's stage is
`None`. -/
theorem load_data_missing_column_none_witness :
    lookupField exWsNoPrioridad.headers ["1", "Idear"] "Prioridad"
      = Value.none ∧
    lookupField exWsNoEstado.headers ["1", "Algo"] "Estado" = Value.none ∧
    (mkRecord exWsNoEstado.headers ["1", "Algo"]).stage = Value.none :=
  ⟨(load_data_missing_column_none exWsNoPrioridad "Prioridad" (by decide)).1
      ["1", "Idear"],
   (load_data_missing_column_none exWsNoEstado "Estado" (by decide)).1
      ["1", "Algo"],
   ((load_data_missing_column_none exWsNoEstado "Estado" (by decide)).2
      rfl).1 (mkRecord exWsNoEstado.headers ["1", "Algo"]) (by decide)⟩

/-- C10: the requested stage always comes from the selector whose
options are exactly the fixed six-stage list, so every cell write the
transition handler ever performs writes one of the six fixed stage
names. -/
theorem writes_only_fixed_stages (ws : Worksheet) (tid : Value)
    (stage : String) (k : Nat) (hk : k < stages6.length) :
    ∀ ev ∈ (transition_handler ws tid stage stages6[k]).snd,
      ∀ r c v, ev = Event.cellWrite r c v → v ∈ stages6 := by
  intro ev hev r c v hv
  subst hv
  by_cases hg : stages6[k] = stage
  · simp [transition_handler, hg] at hev
  · cases hf : findRow ws (pyStr tid) with
    | none => simp [transition_handler, hg, hf] at hev
    | some rr =>
        simp [transition_handler, hg, hf] at hev
        obtain ⟨-, -, hveq⟩ := hev
        rw [hveq]
        exact List.getElem_mem hk

/-- Witness for C10: selecting option 4 ("Pilotear") for ticket "1"
writes a value that is one of the six fixed stages. -/
theorem writes_only_fixed_stages_witness : ("Pilotear" : String) ∈ stages6 :=
  writes_only_fixed_stages exWs (Value.num 1) "Enfocar" 4 (by decide)
    (Event.cellWrite 2 8 "Pilotear") (by decide) 2 8 "Pilotear" rfl
